import Mathlib

/-!
Verification of the streaming chat application in `src/main.py`.

The file embeds the session store (`store` / `get_session_history`), the SSE
stream generator (`stream_generator`), and the cookie fallback of the `/chat`
handler (`chat`) as pure Lean functions, and proves the specified properties
about them.  External collaborators — the Markdown renderer
(`markdown.markdown`) and the LLM provider — are modelled as parameters: the
renderer as an opaque function argument `render : String → String`, and one
round of the provider's lazy fragment stream as a `ProviderRun` value
(either a finite list of fragments, or some fragments followed by a raised
exception with message text `errMsg`).
-/

namespace ChatApp

/-- Role of one conversation turn (LangChain message types). -/
inductive Role where
  | user
  | assistant
  | system
deriving DecidableEq, Repr

/-- One conversation turn: `(role, text)`. -/
abbrev ChatTurn := Role × String

/-- `ChatMessageHistory`: the ordered turns of one session. -/
abbrev History := List ChatTurn

/-- The process-wide `store` dictionary of `src/main.py` line 33, modelled as
an association list from session id to history (insertion order kept). -/
abbrev Store := List (String × History)

/-- First-match lookup in the store, the reading half of Python dict access. -/
def lookupStore : Store → String → Option History
  | [], _ => none
  | (k, h) :: rest, sid => if k = sid then some h else lookupStore rest sid

/-- `get_session_history` (src/main.py lines 35-38): if the id is unseen,
insert a fresh empty history; return the store (possibly extended) together
with the history now held under the id.  Returning the stored entry models
Python returning a live reference into `store`: later appends go through
`appendTurn` on the store, so they are visible to every holder. -/
def get_session_history (store : Store) (session_id : String) :
    Store × History :=
  match lookupStore store session_id with
  | some h => (store, h)
  | none => (store ++ [(session_id, [])], [])

/-- Append one turn to the history stored under `sid` (mutating a
`ChatMessageHistory` object obtained from the store). -/
def appendTurn : Store → String → ChatTurn → Store
  | [], _, _ => []
  | (k, h) :: rest, sid, t =>
      (if k = sid then (k, h ++ [t]) else (k, h)) :: appendTurn rest sid t

/-- One SSE event as yielded by the generator: the text after `event: ` and
the text after `data: ` in the yielded f-string. -/
structure SSEEvent where
  name : String
  data : String
deriving DecidableEq, Repr

/-- The wire form of one yielded event:
`f"event: \x7bname\x7d\ndata: \x7bdata\x7d\n\n"`. -/
def sseFormat (e : SSEEvent) : String :=
  "event: " ++ e.name ++ "\ndata: " ++ e.data ++ "\n\n"

/-- Character-level model of
`chunk.replace("<", "&lt;").replace(">", "&gt;")` (src/main.py line 136):
both patterns are single characters and neither replacement text contains
either pattern, so the two chained scans act independently on each input
character. -/
def escapeChars : List Char → List Char
  | [] => []
  | c :: cs =>
      (if c = '<' then ['&', 'l', 't', ';']
       else if c = '>' then ['&', 'g', 't', ';']
       else [c]) ++ escapeChars cs

/-- HTML-escape `<` and `>` in a string, as on src/main.py line 136. -/
def escapeHtml (s : String) : String := ⟨escapeChars s.data⟩

/-- One round of the provider stream consumed by the
`async for chunk in runnable_with_history.astream(...)` loop: either all
fragments arrive and the loop exhausts normally, or after some fragments an
exception with text `errMsg` is raised. -/
inductive ProviderRun where
  | success (fragments : List String)
  | failure (fragments : List String) (errMsg : String)
deriving DecidableEq, Repr

/-- The fixed error payload of src/main.py line 114. -/
def errorDiv : String := "<div id=\x27error\x27>Error</div>"

/-- History side effect of one `runnable_with_history.astream` call
(LangChain `RunnableWithMessageHistory`, external to src/): the configured
`get_session_history` factory is called when the run is configured, creating
the session entry when unseen; on successful completion the run's exit
listener appends the input (user) message and the aggregated output
(assistant) message to that history; when the run raises, the exit listener
never fires and no turn is appended. -/
def runnableHistoryEffect (store : Store) (session_id message : String) :
    ProviderRun → Store
  | .success frags =>
      appendTurn
        (appendTurn (get_session_history store session_id).1 session_id
          (Role.user, message))
        session_id (Role.assistant, String.join frags)
  | .failure _ _ => (get_session_history store session_id).1

/-- The Token events of one successful pass of the streaming loop
(src/main.py lines 124-140): one `event: message` per chunk, carrying the
escaped chunk itself (`safe_chunk`). -/
def tokenEvents (frags : List String) : List SSEEvent :=
  frags.map (fun chunk => ⟨"message", escapeHtml chunk⟩)

/-- `stream_generator` (src/main.py lines 112-150): given the Markdown
renderer, whether `model` is configured (line 26-30), the current store, the
path/query arguments, and the provider's behaviour this round, return the
list of yielded SSE events and the resulting store.
* `not model or not message` → a single fixed error event, nothing else
  (lines 113-115);
* success → one `message` event per chunk with the escaped chunk, then one
  `close` event carrying `markdown.markdown(full_response)` where
  `full_response` is the concatenation of all chunks (lines 117-147);
* exception → the `message` events of the chunks already yielded, then a
  single `message` event `Error: str(e)` (lines 149-150). -/
def stream_generator (render : String → String) (model : Bool)
    (store : Store) (session_id message : String) (run : ProviderRun) :
    List SSEEvent × Store :=
  if model = false ∨ message = "" then
    ([⟨"message", errorDiv⟩], store)
  else
    match run with
    | .success frags =>
        (tokenEvents frags ++ [⟨"close", render (String.join frags)⟩],
         runnableHistoryEffect store session_id message (.success frags))
    | .failure frags err =>
        (tokenEvents frags ++ [⟨"message", "Error: " ++ err⟩],
         runnableHistoryEffect store session_id message (.failure frags err))

/-- Session id chosen by the `POST /chat` handler (src/main.py lines 66-69):
`request.cookies.get("session_id")` yields `none` when the cookie is absent,
and `if not session_id: session_id = "default"` also catches the empty
string (Python falsiness). -/
def chat_session_id (cookie : Option String) : String :=
  match cookie with
  | none => "default"
  | some s => if s = "" then "default" else s

/-- Number of events with the given event name in a stream. -/
def countEventsNamed (name : String) (events : List SSEEvent) : Nat :=
  (events.filter (fun e => e.name == name)).length

/-! ### Helper lemmas about the store -/

theorem lookupStore_append_of_none {s : Store} {sid : String} (l : Store)
    (hl : lookupStore s sid = none) :
    lookupStore (s ++ l) sid = lookupStore l sid := by
  induction s with
  | nil => rfl
  | cons p rest ih =>
      obtain ⟨k, h⟩ := p
      by_cases hk : k = sid
      · simp [lookupStore, hk] at hl
      · simp only [lookupStore, if_neg hk] at hl
        simpa only [List.cons_append, lookupStore, if_neg hk] using ih hl

theorem lookupStore_appendTurn (s : Store) (sid : String) (t : ChatTurn) :
    lookupStore (appendTurn s sid t) sid
      = (lookupStore s sid).map (fun h => h ++ [t]) := by
  induction s with
  | nil => rfl
  | cons p rest ih =>
      obtain ⟨k, h⟩ := p
      by_cases hk : k = sid
      · rw [appendTurn, if_pos hk, lookupStore, if_pos hk, lookupStore,
          if_pos hk]
        rfl
      · rw [appendTurn, if_neg hk, lookupStore, if_neg hk, lookupStore,
          if_neg hk]
        exact ih

/-- After `get_session_history`, the id is present, bound to the returned
history. -/
theorem lookupStore_after_get (s : Store) (sid : String) :
    lookupStore (get_session_history s sid).1 sid
      = some (get_session_history s sid).2 := by
  cases hl : lookupStore s sid with
  | some h => simp [get_session_history, hl]
  | none =>
      simp only [get_session_history, hl]
      rw [lookupStore_append_of_none _ hl]
      simp [lookupStore]

/-- The history returned by `get_session_history`: the stored one, or `[]`
for an unseen id. -/
theorem get_session_history_snd (s : Store) (sid : String) :
    (get_session_history s sid).2 = (lookupStore s sid).getD [] := by
  cases hl : lookupStore s sid <;> simp [get_session_history, hl]

/-! ### Helper lemmas about escaping -/

theorem angle_not_mem_block (c x : Char)
    (hx : x ∈ (if c = '<' then ['&', 'l', 't', ';']
                else if c = '>' then ['&', 'g', 't', ';'] else [c])) :
    x ≠ '<' ∧ x ≠ '>' := by
  by_cases h1 : c = '<'
  · rw [if_pos h1] at hx
    fin_cases hx <;> decide
  · rw [if_neg h1] at hx
    by_cases h2 : c = '>'
    · rw [if_pos h2] at hx
      fin_cases hx <;> decide
    · rw [if_neg h2, List.mem_singleton] at hx
      subst hx
      exact ⟨h1, h2⟩

theorem escapeChars_no_angle (cs : List Char) :
    ∀ x ∈ escapeChars cs, x ≠ '<' ∧ x ≠ '>' := by
  induction cs with
  | nil =>
      intro x hx
      simp [escapeChars] at hx
  | cons c cs ih =>
      intro x hx
      rw [escapeChars, List.mem_append] at hx
      rcases hx with hx | hx
      · exact angle_not_mem_block c x hx
      · exact ih x hx

theorem newline_mem_block (c : Char) :
    '\n' ∈ (if c = '<' then ['&', 'l', 't', ';']
            else if c = '>' then ['&', 'g', 't', ';'] else [c]) ↔ '\n' = c := by
  by_cases h1 : c = '<'
  · subst h1
    constructor
    · intro h
      exact absurd h (by decide)
    · intro h
      exact absurd h (by decide)
  · rw [if_neg h1]
    by_cases h2 : c = '>'
    · subst h2
      constructor
      · intro h
        exact absurd h (by decide)
      · intro h
        exact absurd h (by decide)
    · rw [if_neg h2, List.mem_singleton]

/-- Escaping does not touch newline characters: the output contains a raw
newline exactly when the input does. -/
theorem mem_escapeChars_newline (cs : List Char) :
    '\n' ∈ escapeChars cs ↔ '\n' ∈ cs := by
  induction cs with
  | nil => simp [escapeChars]
  | cons c cs ih =>
      rw [escapeChars, List.mem_append, newline_mem_block, ih, List.mem_cons]

/-! ### Helper lemmas about the generator's event list -/

theorem stream_generator_success (render : String → String) (store : Store)
    (sid msg : String) (frags : List String) (hmsg : msg ≠ "") :
    stream_generator render true store sid msg (.success frags)
      = (tokenEvents frags ++ [⟨"close", render (String.join frags)⟩],
         runnableHistoryEffect store sid msg (.success frags)) := by
  simp [stream_generator, hmsg]

theorem stream_generator_failure (render : String → String) (store : Store)
    (sid msg err : String) (frags : List String) (hmsg : msg ≠ "") :
    stream_generator render true store sid msg (.failure frags err)
      = (tokenEvents frags ++ [⟨"message", "Error: " ++ err⟩],
         runnableHistoryEffect store sid msg (.failure frags err)) := by
  simp [stream_generator, hmsg]

theorem stream_generator_no_model (render : String → String) (store : Store)
    (sid msg : String) (run : ProviderRun) :
    stream_generator render false store sid msg run
      = ([⟨"message", errorDiv⟩], store) := by
  simp [stream_generator]

theorem stream_generator_empty_message (render : String → String)
    (model : Bool) (store : Store) (sid : String) (run : ProviderRun) :
    stream_generator render model store sid "" run
      = ([⟨"message", errorDiv⟩], store) := by
  simp [stream_generator]

theorem tokenEvents_getElem? (frags : List String) (i : Nat)
    (hi : i < frags.length) :
    (tokenEvents frags)[i]? = some ⟨"message", escapeHtml (frags.getD i "")⟩ := by
  induction frags generalizing i with
  | nil => simp at hi
  | cons f fs ih =>
      cases i with
      | zero =>
          rw [tokenEvents, List.map_cons, List.getElem?_cons_zero,
            List.getD_cons_zero]
      | succ n =>
          rw [tokenEvents, List.map_cons, List.getElem?_cons_succ,
            List.getD_cons_succ]
          exact ih n (by simpa using hi)

theorem length_tokenEvents (frags : List String) :
    (tokenEvents frags).length = frags.length := by
  simp [tokenEvents]

theorem countEventsNamed_append (name : String) (l₁ l₂ : List SSEEvent) :
    countEventsNamed name (l₁ ++ l₂)
      = countEventsNamed name l₁ + countEventsNamed name l₂ := by
  simp [countEventsNamed, List.filter_append]

theorem countEventsNamed_close_tokenEvents (frags : List String) :
    countEventsNamed "close" (tokenEvents frags) = 0 := by
  induction frags with
  | nil => rfl
  | cons f fs ih =>
      simp only [tokenEvents, List.map_cons, countEventsNamed, List.filter]
      exact ih

/-! ### Claim C1 -/

/-- Claim C1, counterexample: on the spec's own scenario (fragments
`["The", " answer", " is", " 4."]`) the second Token event carries the bare
delta `" answer"`, not the cumulative buffer `"The answer"`. -/
theorem token_payload_not_cumulative_cex :
    ((stream_generator (fun s => s) true [] "s1" "2+2?"
        (.success ["The", " answer", " is", " 4."])).1)[1]?
      = some ⟨"message", " answer"⟩
    ∧ (" answer" : String) ≠ "The answer" := by
  decide

/-- Claim C1 (amended): every Token event of a successful round carries only
the newly arrived fragment, HTML-escaped — not the cumulative buffer; for the
fragments `["The", " answer", " is", " 4."]` the successive Token payloads
are `"The"`, `" answer"`, `" is"`, `" 4."`. -/
theorem token_payload_is_delta (render : String → String) (store : Store)
    (sid msg : String) (frags : List String) (hmsg : msg ≠ "")
    (i : Nat) (hi : i < frags.length) :
    ((stream_generator render true store sid msg (.success frags)).1)[i]?
      = some ⟨"message", escapeHtml (frags.getD i "")⟩ := by
  rw [stream_generator_success render store sid msg frags hmsg]
  rw [List.getElem?_append_left (by rw [length_tokenEvents]; exact hi)]
  exact tokenEvents_getElem? frags i hi

/-- Claim C1, witness at the scenario's input. -/
theorem token_payload_is_delta_witness :
    ((stream_generator (fun s => s) true [] "s1" "2+2?"
        (.success ["The", " answer", " is", " 4."])).1)[1]?
      = some ⟨"message",
          escapeHtml ((["The", " answer", " is", " 4."].getD 1 ""))⟩ :=
  token_payload_is_delta (fun s => s) [] "s1" "2+2?"
    ["The", " answer", " is", " 4."] (by decide) 1 (by decide)

/-! ### Claim C2 -/

/-- Claim C2, counterexample: when no credential is configured the stream is
a single `message` event — it contains no `close` event at all, so it does
not contain exactly one Close event. -/
theorem close_event_missing_on_error_cex :
    countEventsNamed "close"
      (stream_generator (fun s => s) false [] "s1" "hi"
        (.success ["x"])).1 ≠ 1 := by
  decide

/-- Claim C2 (amended): a successful round (model configured, nonempty
message) emits exactly one `close` event and it is the last event; the
degraded paths — provider failure, missing credential, empty message — emit
no `close` event at all. -/
theorem close_event_exactly_one_iff_success (render : String → String)
    (store : Store) (sid msg err : String) (frags : List String)
    (hmsg : msg ≠ "") :
    (countEventsNamed "close"
        (stream_generator render true store sid msg (.success frags)).1 = 1
      ∧ (stream_generator render true store sid msg
          (.success frags)).1.getLast?
          = some ⟨"close", render (String.join frags)⟩)
    ∧ countEventsNamed "close"
        (stream_generator render true store sid msg (.failure frags err)).1
        = 0
    ∧ countEventsNamed "close"
        (stream_generator render false store sid msg (.success frags)).1 = 0
    ∧ countEventsNamed "close"
        (stream_generator render true store sid "" (.success frags)).1
        = 0 := by
  refine ⟨⟨?_, ?_⟩, ?_, ?_, ?_⟩
  · rw [stream_generator_success render store sid msg frags hmsg,
      countEventsNamed_append, countEventsNamed_close_tokenEvents]
    rfl
  · rw [stream_generator_success render store sid msg frags hmsg]
    exact List.getLast?_concat _
  · rw [stream_generator_failure render store sid msg err frags hmsg,
      countEventsNamed_append, countEventsNamed_close_tokenEvents]
    rfl
  · rw [stream_generator_no_model render store sid msg (.success frags)]
    rfl
  · rw [stream_generator_empty_message render true store sid (.success frags)]
    rfl

/-- Claim C2, witness. -/
theorem close_event_exactly_one_iff_success_witness :
    (countEventsNamed "close"
        (stream_generator (fun s => s) true [] "s1" "hi"
          (.success ["a"])).1 = 1
      ∧ (stream_generator (fun s => s) true [] "s1" "hi"
          (.success ["a"])).1.getLast?
          = some ⟨"close", (fun s => s) (String.join ["a"])⟩)
    ∧ countEventsNamed "close"
        (stream_generator (fun s => s) true [] "s1" "hi"
          (.failure ["a"] "boom")).1 = 0
    ∧ countEventsNamed "close"
        (stream_generator (fun s => s) false [] "s1" "hi"
          (.success ["a"])).1 = 0
    ∧ countEventsNamed "close"
        (stream_generator (fun s => s) true [] "s1" ""
          (.success ["a"])).1 = 0 :=
  close_event_exactly_one_iff_success (fun s => s) [] "s1" "hi" "boom" ["a"]
    (by decide)

/-! ### Claim C3 -/

/-- Claim C3, counterexample: on a provider failure after fragment `"par"`
the stream ends with a single error-carrying `message` event — there is no
`close` event, so no "Replace followed by Close" pair is emitted. -/
theorem provider_error_replace_close_cex :
    (stream_generator (fun s => s) true [] "s1" "hi"
        (.failure ["par"] "boom")).1
      = [⟨"message", "par"⟩, ⟨"message", "Error: boom"⟩]
    ∧ countEventsNamed "close"
        (stream_generator (fun s => s) true [] "s1" "hi"
          (.failure ["par"] "boom")).1 = 0 := by
  decide

/-- Claim C3 (amended): when the provider raises (including mid-stream), the
stream ends with a single error-carrying `message` event (`"Error: "` plus
the exception text) and emits no `close` event; the session's history gains
no turn for that round — in particular no assistant turn (at most the empty
session entry is created). -/
theorem provider_error_single_message_event (render : String → String)
    (store : Store) (sid msg err : String) (frags : List String)
    (hmsg : msg ≠ "") :
    (stream_generator render true store sid msg
        (.failure frags err)).1.getLast?
        = some ⟨"message", "Error: " ++ err⟩
    ∧ countEventsNamed "close"
        (stream_generator render true store sid msg (.failure frags err)).1
        = 0
    ∧ lookupStore
        (stream_generator render true store sid msg (.failure frags err)).2
        sid
        = some ((lookupStore store sid).getD []) := by
  refine ⟨?_, ?_, ?_⟩
  · rw [stream_generator_failure render store sid msg err frags hmsg]
    exact List.getLast?_concat _
  · rw [stream_generator_failure render store sid msg err frags hmsg,
      countEventsNamed_append, countEventsNamed_close_tokenEvents]
    rfl
  · rw [stream_generator_failure render store sid msg err frags hmsg]
    rw [show (runnableHistoryEffect store sid msg (.failure frags err))
        = (get_session_history store sid).1 from rfl]
    rw [lookupStore_after_get, get_session_history_snd]

/-- Claim C3, witness. -/
theorem provider_error_single_message_event_witness :
    (stream_generator (fun s => s) true [] "s1" "hi"
        (.failure ["par"] "boom")).1.getLast?
        = some ⟨"message", "Error: " ++ "boom"⟩
    ∧ countEventsNamed "close"
        (stream_generator (fun s => s) true [] "s1" "hi"
          (.failure ["par"] "boom")).1 = 0
    ∧ lookupStore
        (stream_generator (fun s => s) true [] "s1" "hi"
          (.failure ["par"] "boom")).2 "s1"
        = some ((lookupStore [] "s1").getD []) :=
  provider_error_single_message_event (fun s => s) [] "s1" "hi" "boom"
    ["par"] (by decide)

/-! ### Claim C4 -/

/-- Claim C4, counterexample: with no model configured, the round leaves the
store exactly as it was — starting from the empty store, no session entry and
in particular no user turn is ever recorded, contradicting "history gains
exactly one user turn"; moreover no `close` event is emitted. -/
theorem missing_credential_history_cex :
    stream_generator (fun s => s) false [] "s1" "2+2?" (.success ["x"])
      = ([⟨"message", errorDiv⟩], ([] : Store))
    ∧ lookupStore ([] : Store) "s1" = none
    ∧ countEventsNamed "close"
        (stream_generator (fun s => s) false [] "s1" "2+2?"
          (.success ["x"])).1 = 0 := by
  decide

/-- Claim C4 (amended): when no provider credential is configured, every
round immediately emits the single fixed configuration-error event
`⟨message, <div id='error'>Error</div>⟩` and leaves the session store
completely untouched: history gains neither a user turn nor an assistant
turn. -/
theorem missing_credential_fixed_error (render : String → String)
    (store : Store) (sid msg : String) (run : ProviderRun) :
    stream_generator render false store sid msg run
      = ([⟨"message", errorDiv⟩], store) :=
  stream_generator_no_model render store sid msg run

/-! ### Claim C5 -/

/-- Claim C5, counterexample: an empty message does not produce an empty
stream — exactly one error event is emitted. -/
theorem empty_message_emits_event_cex :
    (stream_generator (fun s => s) true [] "s1" "" (.success ["x"])).1
      = [⟨"message", errorDiv⟩]
    ∧ ([⟨"message", errorDiv⟩] : List SSEEvent) ≠ [] := by
  decide

/-- Claim C5 (amended): an empty message is rejected before the session
store is touched — the store is returned unchanged, so no history is created
or mutated — but one fixed error event is emitted (not zero events). -/
theorem empty_message_rejected (render : String → String) (model : Bool)
    (store : Store) (sid : String) (run : ProviderRun) :
    stream_generator render model store sid "" run
      = ([⟨"message", errorDiv⟩], store) :=
  stream_generator_empty_message render model store sid run

/-! ### Claim C6 -/

/-- Claim C6 (confirmed): every Token payload of a successful round is the
fragment with all `<` and `>` HTML-escaped — the payload contains no raw `<`
or `>` character — while the terminal `close` event carries the rendered
Markdown verbatim, with no escaping applied to it. -/
theorem token_escaped_replace_not_reescaped (render : String → String)
    (store : Store) (sid msg : String) (frags : List String)
    (hmsg : msg ≠ "") (i : Nat) (hi : i < frags.length) :
    ((stream_generator render true store sid msg (.success frags)).1)[i]?
        = some ⟨"message", escapeHtml (frags.getD i "")⟩
    ∧ (∀ c ∈ (escapeHtml (frags.getD i "")).data, c ≠ '<' ∧ c ≠ '>')
    ∧ (stream_generator render true store sid msg
        (.success frags)).1.getLast?
        = some ⟨"close", render (String.join frags)⟩ := by
  refine ⟨?_, ?_, ?_⟩
  · rw [stream_generator_success render store sid msg frags hmsg]
    rw [List.getElem?_append_left (by rw [length_tokenEvents]; exact hi)]
    exact tokenEvents_getElem? frags i hi
  · exact escapeChars_no_angle (frags.getD i "").data
  · rw [stream_generator_success render store sid msg frags hmsg]
    exact List.getLast?_concat _

/-- Claim C6, witness at a fragment containing markup. -/
theorem token_escaped_replace_not_reescaped_witness :
    ((stream_generator (fun s => s) true [] "s1" "hi"
        (.success ["<b>hi</b>"])).1)[0]?
        = some ⟨"message", escapeHtml ((["<b>hi</b>"].getD 0 ""))⟩
    ∧ (∀ c ∈ (escapeHtml ((["<b>hi</b>"].getD 0 ""))).data,
        c ≠ '<' ∧ c ≠ '>')
    ∧ (stream_generator (fun s => s) true [] "s1" "hi"
        (.success ["<b>hi</b>"])).1.getLast?
        = some ⟨"close", (fun s => s) (String.join ["<b>hi</b>"])⟩ :=
  token_escaped_replace_not_reescaped (fun s => s) [] "s1" "hi"
    ["<b>hi</b>"] (by decide) 0 (by decide)

/-! ### Claim C7 -/

/-- Claim C7, counterexample: a fragment containing a raw newline is emitted
with that newline intact — it is neither replaced by a break marker in the
Token payload nor stripped from the `close` payload (renderer taken as the
identity to expose the pass-through). -/
theorem newline_not_neutralized_cex :
    (stream_generator (fun s => s) true [] "s1" "m"
        (.success ["a\nb"])).1
      = [⟨"message", "a\nb"⟩, ⟨"close", "a\nb"⟩]
    ∧ '\n' ∈ ("a\nb" : String).data := by
  decide

/-- Claim C7 (amended): the generator performs no newline neutralization:
a Token payload is the fragment with only `<`/`>` escaped, so it contains a
raw newline exactly when the fragment does, and the `close` payload is the
renderer's output emitted verbatim. -/
theorem newline_passthrough (render : String → String) (store : Store)
    (sid msg : String) (frags : List String) (hmsg : msg ≠ "")
    (i : Nat) (hi : i < frags.length) :
    ((stream_generator render true store sid msg (.success frags)).1)[i]?
        = some ⟨"message", escapeHtml (frags.getD i "")⟩
    ∧ ('\n' ∈ (escapeHtml (frags.getD i "")).data
        ↔ '\n' ∈ (frags.getD i "").data)
    ∧ (stream_generator render true store sid msg
        (.success frags)).1.getLast?
        = some ⟨"close", render (String.join frags)⟩ := by
  refine ⟨?_, ?_, ?_⟩
  · rw [stream_generator_success render store sid msg frags hmsg]
    rw [List.getElem?_append_left (by rw [length_tokenEvents]; exact hi)]
    exact tokenEvents_getElem? frags i hi
  · exact mem_escapeChars_newline (frags.getD i "").data
  · rw [stream_generator_success render store sid msg frags hmsg]
    exact List.getLast?_concat _

/-- Claim C7, witness at a fragment containing a newline. -/
theorem newline_passthrough_witness :
    ((stream_generator (fun s => s) true [] "s1" "m"
        (.success ["a\nb"])).1)[0]?
        = some ⟨"message", escapeHtml ((["a\nb"].getD 0 ""))⟩
    ∧ ('\n' ∈ (escapeHtml ((["a\nb"].getD 0 ""))).data
        ↔ '\n' ∈ ((["a\nb"].getD 0 "") : String).data)
    ∧ (stream_generator (fun s => s) true [] "s1" "m"
        (.success ["a\nb"])).1.getLast?
        = some ⟨"close", (fun s => s) (String.join ["a\nb"])⟩ :=
  newline_passthrough (fun s => s) [] "s1" "m" ["a\nb"] (by decide) 0
    (by decide)

/-! ### Claim C8 -/

/-- Claim C8 (confirmed): `get_session_history` is idempotent — a second
call with the same id returns the same store and the same history entry;
because both calls address the one entry stored under the id (same
identity), an append made between the calls is visible through the second
call; and for an unseen id it inserts and returns a new empty history
(`lookupStore` finds the id afterwards, bound to the previous history or to
`[]` when the id was unseen). -/
theorem get_session_history_idempotent (store : Store) (sid : String)
    (t : ChatTurn) :
    get_session_history (get_session_history store sid).1 sid
        = get_session_history store sid
    ∧ get_session_history
        (appendTurn (get_session_history store sid).1 sid t) sid
        = (appendTurn (get_session_history store sid).1 sid t,
           (get_session_history store sid).2 ++ [t])
    ∧ lookupStore (get_session_history store sid).1 sid
        = some ((lookupStore store sid).getD []) := by
  have hafter := lookupStore_after_get store sid
  refine ⟨?_, ?_, ?_⟩
  · rw [get_session_history, hafter]
  · have happ : lookupStore
        (appendTurn (get_session_history store sid).1 sid t) sid
        = some ((get_session_history store sid).2 ++ [t]) := by
      rw [lookupStore_appendTurn, hafter]
      rfl
    rw [get_session_history, happ]
  · rw [hafter, get_session_history_snd]

/-! ### Claim C9 -/

/-- Claim C9 (confirmed): for every successful round the terminal `close`
event's payload is exactly the Markdown rendering of `full_response`, the
in-order concatenation of all fragments yielded by the provider (the final
value of the accumulated buffer). -/
theorem replace_renders_fragment_concat (render : String → String)
    (store : Store) (sid msg : String) (frags : List String)
    (hmsg : msg ≠ "") :
    (stream_generator render true store sid msg
        (.success frags)).1.getLast?
      = some ⟨"close",
          render (frags.foldl (fun acc chunk => acc ++ chunk) "")⟩ := by
  rw [stream_generator_success render store sid msg frags hmsg]
  exact List.getLast?_concat _

/-- Claim C9, witness at the spec's scenario. -/
theorem replace_renders_fragment_concat_witness :
    (stream_generator (fun s => s) true [] "s1" "2+2?"
        (.success ["The", " answer", " is", " 4."])).1.getLast?
      = some ⟨"close",
          (fun s => s)
            ((["The", " answer", " is", " 4."] : List String).foldl
              (fun acc chunk => acc ++ chunk) "")⟩ :=
  replace_renders_fragment_concat (fun s => s) [] "s1" "2+2?"
    ["The", " answer", " is", " 4."] (by decide)

/-! ### Claim C10 -/

/-- Claim C10 (confirmed): a `POST /chat` request arriving with no
`session_id` cookie is not rejected and gets no fresh id — the handler
substitutes the fixed identifier `"default"` (Python falsiness also maps an
empty cookie value to the same shared session). -/
theorem missing_cookie_default_session :
    chat_session_id none = "default"
    ∧ chat_session_id (some "") = "default" := by
  decide

end ChatApp
